import Mathlib

/-!
Verification of the ledger (party balance) and inventory (stock) core of the
billing application, as a shallow embedding in Lean 4.

Conventions of the embedding:
* JavaScript numbers are modelled by `JsNum`: either a rational value or `nan`.
  The only arithmetic the embedded code performs is addition and subtraction,
  and adding `undefined` (a missing field) to a number yields `NaN` in
  JavaScript; `nan` is absorbing for `jsAdd` and `jsSub`, which is exact for
  this fragment.
* A possibly-missing numeric field (TypeScript `number` that can be
  `undefined` at runtime) is `Option ℚ`; `amt` coerces it into a `JsNum`
  the way a JavaScript arithmetic context would (missing becomes `nan`).
* Calls to the remote persistence collaborator are passed in as explicit
  `Except` values (a thrown rejection is `.error`), and stateful managers
  become explicit state-passing functions.
-/

namespace Spec2Proof

/-- A JavaScript number: a rational, or NaN. -/
inductive JsNum where
  | num (q : ℚ)
  | nan
deriving DecidableEq, Repr

/-- JavaScript addition on the embedded numbers: NaN is absorbing. -/
def jsAdd : JsNum → JsNum → JsNum
  | .num a, .num b => .num (a + b)
  | _, _ => .nan

/-- JavaScript subtraction on the embedded numbers: NaN is absorbing. -/
def jsSub : JsNum → JsNum → JsNum
  | .num a, .num b => .num (a - b)
  | _, _ => .nan

/-- A possibly-missing amount used in an arithmetic context:
`undefined` coerces to NaN. -/
def amt : Option ℚ → JsNum
  | some q => .num q
  | none => .nan

@[simp] theorem jsAdd_nan_left (x : JsNum) : jsAdd .nan x = .nan := by
  cases x <;> rfl

@[simp] theorem jsAdd_nan_right (x : JsNum) : jsAdd x .nan = .nan := by
  cases x <;> rfl

@[simp] theorem jsSub_nan_left (x : JsNum) : jsSub .nan x = .nan := by
  cases x <;> rfl

@[simp] theorem jsSub_nan_right (x : JsNum) : jsSub x .nan = .nan := by
  cases x <;> rfl

theorem jsAdd_jsAdd_right_comm (a x y : JsNum) :
    jsAdd (jsAdd a x) y = jsAdd (jsAdd a y) x := by
  cases a <;> cases x <;> cases y <;> simp [jsAdd] <;> ring

theorem jsSub_jsAdd_comm (a x y : JsNum) :
    jsSub (jsAdd a x) y = jsAdd (jsSub a y) x := by
  cases a <;> cases x <;> cases y <;> simp [jsAdd, jsSub] <;> ring

theorem jsSub_jsSub_right_comm (a x y : JsNum) :
    jsSub (jsSub a x) y = jsSub (jsSub a y) x := by
  cases a <;> cases x <;> cases y <;> simp [jsSub] <;> ring

/-- The four transaction kinds of the `PartyTransaction` union
(`invoice`, `bill`, `payment-in`, `payment-out`). -/
inductive TxType where
  | invoice
  | bill
  | paymentIn
  | paymentOut
deriving DecidableEq, Repr

/-- The `PartyTransaction` record built by `PartyManager.getPartyTransactions`.
`amount` is `Option ℚ` so a record whose source field was `undefined` can be
represented; `date` is the numeric timestamp `new Date(d).getTime()`. -/
structure PartyTransaction where
  id : String
  partyId : String
  type : TxType
  amount : Option ℚ
  date : ℚ
  reference : String
deriving DecidableEq, Repr

/-- The breakdown returned by
`PartyManager.calculatePartyBalanceFromTransactions`. -/
structure BalanceBreakdown where
  balance : JsNum
  totalInvoiced : JsNum
  totalBilled : JsNum
  totalPaymentIn : JsNum
  totalPaymentOut : JsNum
  transactionCount : Nat
deriving DecidableEq, Repr

/-- The all-zero breakdown. -/
def zeroBreakdown : BalanceBreakdown :=
  { balance := .num 0
    totalInvoiced := .num 0
    totalBilled := .num 0
    totalPaymentIn := .num 0
    totalPaymentOut := .num 0
    transactionCount := 0 }

/-- One step of the `transactions.forEach` switch in
`calculatePartyBalanceFromTransactions`: invoice adds to the balance, bill and
payment-in subtract, payment-out adds; each kind also accumulates into its own
total. -/
def calcStep (acc : BalanceBreakdown) (t : PartyTransaction) : BalanceBreakdown :=
  match t.type with
  | .invoice =>
      { acc with
        balance := jsAdd acc.balance (amt t.amount)
        totalInvoiced := jsAdd acc.totalInvoiced (amt t.amount) }
  | .bill =>
      { acc with
        balance := jsSub acc.balance (amt t.amount)
        totalBilled := jsAdd acc.totalBilled (amt t.amount) }
  | .paymentIn =>
      { acc with
        totalPaymentIn := jsAdd acc.totalPaymentIn (amt t.amount)
        balance := jsSub acc.balance (amt t.amount) }
  | .paymentOut =>
      { acc with
        totalPaymentOut := jsAdd acc.totalPaymentOut (amt t.amount)
        balance := jsAdd acc.balance (amt t.amount) }

/-- The pure fold at the heart of
`PartyManager.calculatePartyBalanceFromTransactions`, applied to the party
transaction list: all accumulators start at 0 and `transactionCount` is the
length of the list. -/
def calculatePartyBalanceFromTransactions (ts : List PartyTransaction) :
    BalanceBreakdown :=
  { ts.foldl calcStep zeroBreakdown with transactionCount := ts.length }

/-- One step of the `transactions.forEach` switch in
`PartyManager.getPartyBalance`: same four signed additions, balance only. -/
def balStep (b : JsNum) (t : PartyTransaction) : JsNum :=
  match t.type with
  | .invoice => jsAdd b (amt t.amount)
  | .bill => jsSub b (amt t.amount)
  | .paymentIn => jsSub b (amt t.amount)
  | .paymentOut => jsAdd b (amt t.amount)

/-- The pure fold at the heart of `PartyManager.getPartyBalance`, applied to
the party transaction list: balance alone, starting at 0. -/
def getPartyBalanceFold (ts : List PartyTransaction) : JsNum :=
  ts.foldl balStep (.num 0)

/-- Sum of the amounts of transactions of one kind (a missing amount counts
as 0 here; the main theorems assume no amount is missing). -/
def kindAmounts (k : TxType) (ts : List PartyTransaction) : ℚ :=
  (ts.map (fun t => if t.type = k then t.amount.getD 0 else 0)).sum

/-- Select the per-kind total of a breakdown. -/
def kindTotal (b : BalanceBreakdown) : TxType → JsNum
  | .invoice => b.totalInvoiced
  | .bill => b.totalBilled
  | .paymentIn => b.totalPaymentIn
  | .paymentOut => b.totalPaymentOut

theorem foldl_calcStep_eq (ts : List PartyTransaction)
    (h : ∀ t ∈ ts, t.amount ≠ none) :
    ∀ (a b c d e : ℚ) (n : Nat),
      ts.foldl calcStep ⟨.num a, .num b, .num c, .num d, .num e, n⟩ =
        ⟨.num (a + kindAmounts .invoice ts - kindAmounts .bill ts
               - kindAmounts .paymentIn ts + kindAmounts .paymentOut ts),
         .num (b + kindAmounts .invoice ts),
         .num (c + kindAmounts .bill ts),
         .num (d + kindAmounts .paymentIn ts),
         .num (e + kindAmounts .paymentOut ts), n⟩ := by
  induction ts with
  | nil => intro a b c d e n; simp [kindAmounts]
  | cons t ts ih =>
      intro a b c d e n
      have ht : t.amount ≠ none := h t (List.mem_cons_self t ts)
      obtain ⟨q, hq⟩ : ∃ q, t.amount = some q := by
        cases hamt : t.amount with
        | none => exact absurd hamt ht
        | some q => exact ⟨q, rfl⟩
      have h2 : ∀ u ∈ ts, u.amount ≠ none := fun u hu => h u (List.mem_cons_of_mem t hu)
      cases htype : t.type <;>
        simp only [List.foldl_cons, calcStep, htype, hq, amt, jsAdd, jsSub, ih h2,
          kindAmounts, List.map_cons, List.sum_cons, if_pos, if_neg,
          reduceCtorEq, ite_true, ite_false, BalanceBreakdown.mk.injEq,
          JsNum.num.injEq, reduceIte, Option.getD_some] <;>
        and_intros <;>
        first
          | rfl
          | ring

theorem foldl_balStep_eq (ts : List PartyTransaction)
    (h : ∀ t ∈ ts, t.amount ≠ none) :
    ∀ (a : ℚ),
      ts.foldl balStep (.num a) =
        .num (a + kindAmounts .invoice ts - kindAmounts .bill ts
              - kindAmounts .paymentIn ts + kindAmounts .paymentOut ts) := by
  induction ts with
  | nil => intro a; simp [kindAmounts]
  | cons t ts ih =>
      intro a
      have ht : t.amount ≠ none := h t (List.mem_cons_self t ts)
      obtain ⟨q, hq⟩ : ∃ q, t.amount = some q := by
        cases hamt : t.amount with
        | none => exact absurd hamt ht
        | some q => exact ⟨q, rfl⟩
      have h2 : ∀ u ∈ ts, u.amount ≠ none := fun u hu => h u (List.mem_cons_of_mem t hu)
      cases htype : t.type <;>
        simp only [List.foldl_cons, balStep, htype, hq, amt, jsAdd, jsSub, ih h2,
          kindAmounts, List.map_cons, List.sum_cons, reduceCtorEq, ite_true,
          ite_false, JsNum.num.injEq, reduceIte, Option.getD_some] <;>
        ring

theorem calcStep_right_comm (z : BalanceBreakdown) (x y : PartyTransaction) :
    calcStep (calcStep z x) y = calcStep (calcStep z y) x := by
  cases hx : x.type <;> cases hy : y.type <;>
    simp only [calcStep, hx, hy, BalanceBreakdown.mk.injEq] <;>
    and_intros <;>
    first
      | trivial
      | apply jsAdd_jsAdd_right_comm
      | apply jsSub_jsAdd_comm
      | exact (jsSub_jsAdd_comm _ _ _).symm
      | apply jsSub_jsSub_right_comm

/-- An error raised by a read from the persistence collaborator (a rejected
promise caught by the try/catch blocks of `PartyManager`). -/
inductive ApiError where
  | fetchFailed
deriving DecidableEq, Repr

/-- A sale record as consumed by `getPartyTransactions`
(`totalAmount` may be missing at runtime, hence `Option`). -/
structure Sale where
  id : String
  partyName : String
  phoneNumber : String
  totalAmount : Option ℚ
  date : ℚ
  invoiceNo : String
deriving DecidableEq, Repr

/-- A purchase record as consumed by `getPartyTransactions`. -/
structure Purchase where
  id : String
  partyName : String
  phoneNumber : String
  totalAmount : Option ℚ
  date : ℚ
  billNo : String
deriving DecidableEq, Repr

/-- The two payment directions carried by a payment record. -/
inductive PaymentKind where
  | paymentIn
  | paymentOut
deriving DecidableEq, Repr

/-- The cast `payment.type as payment-in | payment-out`. -/
def PaymentKind.toTxType : PaymentKind → TxType
  | .paymentIn => .paymentIn
  | .paymentOut => .paymentOut

/-- A payment record as consumed by `getPartyTransactions`. -/
structure Payment where
  id : String
  partyName : String
  phoneNumber : String
  ptype : PaymentKind
  amount : Option ℚ
  date : ℚ
  paymentNo : String
deriving DecidableEq, Repr

/-- The unsorted transaction list `getPartyTransactions` builds from the three
fetched categories: each category is filtered to the party (case-insensitive
name match, exact phone match) and pushed in order sales, purchases,
payments. -/
def txsOfFetches (partyName phoneNumber : String) (sales : List Sale)
    (purchases : List Purchase) (payments : List Payment) :
    List PartyTransaction :=
  let partyId := partyName.toLower ++ "-" ++ phoneNumber
  ((sales.filter (fun s =>
        (s.partyName.toLower == partyName.toLower) && (s.phoneNumber == phoneNumber))).map
      (fun s => ⟨s.id, partyId, .invoice, s.totalAmount, s.date, s.invoiceNo⟩))
  ++ ((purchases.filter (fun p =>
        (p.partyName.toLower == partyName.toLower) && (p.phoneNumber == phoneNumber))).map
      (fun p => ⟨p.id, partyId, .bill, p.totalAmount, p.date, p.billNo⟩))
  ++ ((payments.filter (fun p =>
        (p.partyName.toLower == partyName.toLower) && (p.phoneNumber == phoneNumber))).map
      (fun p => ⟨p.id, partyId, p.ptype.toTxType, p.amount, p.date, p.paymentNo⟩))

/-- One insertion step of the (stable) sort by descending date performed at
the end of `getPartyTransactions`. -/
def insertByDateDesc (t : PartyTransaction) :
    List PartyTransaction → List PartyTransaction
  | [] => [t]
  | u :: us => if u.date < t.date then t :: u :: us else u :: insertByDateDesc t us

/-- The sort by descending date (`sort((a, b) => dateB - dateA)`). -/
def sortByDateDesc (ts : List PartyTransaction) : List PartyTransaction :=
  ts.foldr insertByDateDesc []

/-- `PartyManager.getPartyTransactions`, with the three collaborator reads
passed in explicitly (a rejected read is `.error`). The whole body runs in a
try/catch whose catch returns the empty list, so if any category read fails
the function returns `[]`; otherwise the filtered union is sorted by
descending date. (In the source a failing read also prevents the later reads
from being awaited, but every failing case collapses to the same `[]`.) -/
def getPartyTransactions (partyName phoneNumber : String)
    (salesRes : Except ApiError (List Sale))
    (purchasesRes : Except ApiError (List Purchase))
    (paymentsRes : Except ApiError (List Payment)) : List PartyTransaction :=
  match salesRes, purchasesRes, paymentsRes with
  | .ok ss, .ok ps, .ok ys => sortByDateDesc (txsOfFetches partyName phoneNumber ss ps ys)
  | _, _, _ => []

/-- `PartyManager.getPartyBalance`: fetch the party transactions (with the
collaborator reads passed in) and fold the balance. -/
def getPartyBalance (partyName phoneNumber : String)
    (salesRes : Except ApiError (List Sale))
    (purchasesRes : Except ApiError (List Purchase))
    (paymentsRes : Except ApiError (List Payment)) : JsNum :=
  getPartyBalanceFold (getPartyTransactions partyName phoneNumber salesRes purchasesRes paymentsRes)

/-- `PartyManager.calculatePartyBalanceFromTransactions` at the fetch level:
fetch the party transactions and compute the breakdown. -/
def calculatePartyBalanceFromTransactionsFetch (partyName phoneNumber : String)
    (salesRes : Except ApiError (List Sale))
    (purchasesRes : Except ApiError (List Purchase))
    (paymentsRes : Except ApiError (List Payment)) : BalanceBreakdown :=
  calculatePartyBalanceFromTransactions
    (getPartyTransactions partyName phoneNumber salesRes purchasesRes paymentsRes)

theorem calcStep_balance_nan (acc : BalanceBreakdown) (t : PartyTransaction)
    (h : acc.balance = .nan) : (calcStep acc t).balance = .nan := by
  cases ht : t.type <;> simp [calcStep, ht, h]

theorem foldl_calcStep_balance_nan (ts : List PartyTransaction) :
    ∀ acc, acc.balance = .nan → (ts.foldl calcStep acc).balance = .nan := by
  induction ts with
  | nil => exact fun _ h => h
  | cons t ts ih => exact fun acc h => ih _ (calcStep_balance_nan acc t h)

theorem calcStep_kindTotal_nan (acc : BalanceBreakdown) (u : PartyTransaction)
    (k : TxType) (h : kindTotal acc k = .nan) :
    kindTotal (calcStep acc u) k = .nan := by
  cases hu : u.type <;> cases k <;>
    simp [calcStep, kindTotal, hu] <;>
    simp [kindTotal] at h <;> simp [h]

theorem foldl_calcStep_kindTotal_nan (ts : List PartyTransaction) (k : TxType) :
    ∀ acc, kindTotal acc k = .nan → kindTotal (ts.foldl calcStep acc) k = .nan := by
  induction ts with
  | nil => exact fun _ h => h
  | cons t ts ih => exact fun acc h => ih _ (calcStep_kindTotal_nan acc t k h)

theorem calcStep_amount_none (acc : BalanceBreakdown) (t : PartyTransaction)
    (h : t.amount = none) :
    (calcStep acc t).balance = .nan ∧ kindTotal (calcStep acc t) t.type = .nan := by
  cases ht : t.type <;> simp [calcStep, kindTotal, ht, h, amt]

@[simp] theorem kindTotal_set_count (b : BalanceBreakdown) (n : Nat) (k : TxType) :
    kindTotal { b with transactionCount := n } k = kindTotal b k := by
  cases k <;> rfl

/-- C1: for every list of party transactions with no missing amounts,
the balance computed by `calculatePartyBalanceFromTransactions` equals
(sum of invoice amounts) - (sum of bill amounts) - (sum of payment-in
amounts) + (sum of payment-out amounts); each per-kind total equals the sum
of amounts of that one kind; `transactionCount` is the length of the input;
and the `getPartyBalance` fold returns the same balance. In particular a
single Invoice(100) yields balance 100, Bill(100) yields -100,
PaymentIn(100) yields -100, and PaymentOut(100) yields 100. -/
theorem C1_balance_signed_sums (ts : List PartyTransaction)
    (h : ∀ t ∈ ts, t.amount ≠ none) :
    ((calculatePartyBalanceFromTransactions ts).balance =
        .num (kindAmounts .invoice ts - kindAmounts .bill ts
              - kindAmounts .paymentIn ts + kindAmounts .paymentOut ts)
      ∧ (calculatePartyBalanceFromTransactions ts).totalInvoiced =
          .num (kindAmounts .invoice ts)
      ∧ (calculatePartyBalanceFromTransactions ts).totalBilled =
          .num (kindAmounts .bill ts)
      ∧ (calculatePartyBalanceFromTransactions ts).totalPaymentIn =
          .num (kindAmounts .paymentIn ts)
      ∧ (calculatePartyBalanceFromTransactions ts).totalPaymentOut =
          .num (kindAmounts .paymentOut ts)
      ∧ (calculatePartyBalanceFromTransactions ts).transactionCount = ts.length
      ∧ getPartyBalanceFold ts = (calculatePartyBalanceFromTransactions ts).balance)
    ∧ ((calculatePartyBalanceFromTransactions
          [⟨"i", "p", .invoice, some 100, 0, "r"⟩]).balance = .num 100
      ∧ (calculatePartyBalanceFromTransactions
          [⟨"i", "p", .bill, some 100, 0, "r"⟩]).balance = .num (-100)
      ∧ (calculatePartyBalanceFromTransactions
          [⟨"i", "p", .paymentIn, some 100, 0, "r"⟩]).balance = .num (-100)
      ∧ (calculatePartyBalanceFromTransactions
          [⟨"i", "p", .paymentOut, some 100, 0, "r"⟩]).balance = .num 100) := by
  have hc := foldl_calcStep_eq ts h 0 0 0 0 0 0
  have hb := foldl_balStep_eq ts h 0
  constructor
  · unfold calculatePartyBalanceFromTransactions getPartyBalanceFold zeroBreakdown
    rw [hc, hb]
    simp [zero_add]
  · refine ⟨?_, ?_, ?_, ?_⟩ <;>
      simp [calculatePartyBalanceFromTransactions, calcStep, zeroBreakdown, amt,
        jsAdd, jsSub, zero_add, zero_sub]

/-- Witness for C1 at the concrete singleton list Invoice(100). -/
theorem C1_balance_signed_sums_witness :
    (∀ t ∈ [(⟨"i", "p", .invoice, some 100, 0, "r"⟩ : PartyTransaction)],
        t.amount ≠ none)
    ∧ (calculatePartyBalanceFromTransactions
          [(⟨"i", "p", .invoice, some 100, 0, "r"⟩ : PartyTransaction)]).balance =
        .num (kindAmounts .invoice
                [(⟨"i", "p", .invoice, some 100, 0, "r"⟩ : PartyTransaction)]
              - kindAmounts .bill
                [(⟨"i", "p", .invoice, some 100, 0, "r"⟩ : PartyTransaction)]
              - kindAmounts .paymentIn
                [(⟨"i", "p", .invoice, some 100, 0, "r"⟩ : PartyTransaction)]
              + kindAmounts .paymentOut
                [(⟨"i", "p", .invoice, some 100, 0, "r"⟩ : PartyTransaction)]) :=
  ⟨by simp, (C1_balance_signed_sums
      [⟨"i", "p", .invoice, some 100, 0, "r"⟩] (by simp)).1.1⟩

/-- C2: for every transaction list and every permutation of it,
`calculatePartyBalanceFromTransactions` returns an identical breakdown. -/
theorem C2_perm_invariance (ts₁ ts₂ : List PartyTransaction) (h : ts₁.Perm ts₂) :
    calculatePartyBalanceFromTransactions ts₁ =
      calculatePartyBalanceFromTransactions ts₂ := by
  unfold calculatePartyBalanceFromTransactions
  rw [h.length_eq,
    h.foldl_eq' (fun x _ y _ z => calcStep_right_comm z x y) zeroBreakdown]

/-- Witness for C2 at a concrete two-element list and its swap. -/
theorem C2_perm_invariance_witness :
    calculatePartyBalanceFromTransactions
        [⟨"a", "p", .invoice, some 100, 0, "r1"⟩,
         ⟨"b", "p", .bill, some 40, 0, "r2"⟩] =
      calculatePartyBalanceFromTransactions
        [⟨"b", "p", .bill, some 40, 0, "r2"⟩,
         ⟨"a", "p", .invoice, some 100, 0, "r1"⟩] :=
  C2_perm_invariance _ _
    (List.Perm.swap (⟨"b", "p", .bill, some 40, 0, "r2"⟩ : PartyTransaction)
      (⟨"a", "p", .invoice, some 100, 0, "r1"⟩ : PartyTransaction) [])

/-- C3 counterexample: a transaction with a missing amount is NOT treated as
amount 0 — the breakdown it produces differs from the breakdown produced by
the same transaction with amount 0 (the missing amount poisons the balance
and its kind total to NaN). -/
theorem C3_counterexample :
    calculatePartyBalanceFromTransactions
        [⟨"t", "p", .invoice, none, 0, "r"⟩] ≠
      calculatePartyBalanceFromTransactions
        [⟨"t", "p", .invoice, some 0, 0, "r"⟩] := by
  simp [calculatePartyBalanceFromTransactions, calcStep, zeroBreakdown, amt,
    jsAdd, BalanceBreakdown.mk.injEq]

/-- C3 (amended): the empty transaction list yields the all-zero breakdown;
a transaction with a missing amount is still counted in `transactionCount`,
but it poisons the balance and the total of its own kind to NaN instead of
contributing amount 0. -/
theorem C3_empty_zero_and_missing_amount_nan :
    calculatePartyBalanceFromTransactions [] = zeroBreakdown
    ∧ ∀ ts t, t ∈ ts → t.amount = none →
        (calculatePartyBalanceFromTransactions ts).balance = .nan
        ∧ kindTotal (calculatePartyBalanceFromTransactions ts) t.type = .nan
        ∧ (calculatePartyBalanceFromTransactions ts).transactionCount = ts.length := by
  refine ⟨rfl, ?_⟩
  intro ts t hmem hnone
  obtain ⟨l₁, l₂, rfl⟩ := List.append_of_mem hmem
  unfold calculatePartyBalanceFromTransactions
  rw [List.foldl_append]
  simp only [List.foldl_cons]
  refine ⟨?_, ?_, by trivial⟩
  · exact foldl_calcStep_balance_nan l₂ _
      (calcStep_amount_none (List.foldl calcStep zeroBreakdown l₁) t hnone).1
  · rw [kindTotal_set_count]
    exact foldl_calcStep_kindTotal_nan l₂ t.type _
      (calcStep_amount_none (List.foldl calcStep zeroBreakdown l₁) t hnone).2

/-- Witness for C3 (amended) at a concrete singleton list with a missing
amount. -/
theorem C3_empty_zero_and_missing_amount_nan_witness :
    ((⟨"t", "p", .invoice, none, 0, "r"⟩ : PartyTransaction) ∈
        [(⟨"t", "p", .invoice, none, 0, "r"⟩ : PartyTransaction)])
    ∧ (calculatePartyBalanceFromTransactions
        [(⟨"t", "p", .invoice, none, 0, "r"⟩ : PartyTransaction)]).balance = .nan :=
  ⟨List.mem_singleton_self _,
    (C3_empty_zero_and_missing_amount_nan.2 _ _ (List.mem_singleton_self _) rfl).1⟩

/-- C4 counterexample: when the sales fetch fails, `getPartyTransactions`
does not propagate an error — it returns the empty list even though the
purchases fetch succeeded with a 100-rupee bill for the party, and the
balance computation returns the all-zero breakdown (silent zero-fill). -/
theorem C4_counterexample :
    getPartyTransactions "Acme" "123" (.error .fetchFailed)
        (.ok [⟨"p1", "Acme", "123", some 100, 0, "B-1"⟩]) (.ok []) = []
    ∧ calculatePartyBalanceFromTransactionsFetch "Acme" "123" (.error .fetchFailed)
        (.ok [⟨"p1", "Acme", "123", some 100, 0, "B-1"⟩]) (.ok []) = zeroBreakdown
    ∧ getPartyBalance "Acme" "123" (.error .fetchFailed)
        (.ok [⟨"p1", "Acme", "123", some 100, 0, "B-1"⟩]) (.ok []) = .num 0 :=
  ⟨rfl, rfl, rfl⟩

/-- C4 (amended): if any one of the three category fetches fails, the
exception is caught inside `getPartyTransactions`, which returns the empty
list; consequently `getPartyBalance` returns 0 and
`calculatePartyBalanceFromTransactions` returns the all-zero breakdown — the
failure is silently defaulted to an empty ledger, not propagated to the
caller. -/
theorem C4_fetch_failure_zero_fill (pn ph : String)
    (sRes : Except ApiError (List Sale)) (pRes : Except ApiError (List Purchase))
    (yRes : Except ApiError (List Payment))
    (h : ¬ ∃ ss ps ys, sRes = .ok ss ∧ pRes = .ok ps ∧ yRes = .ok ys) :
    getPartyTransactions pn ph sRes pRes yRes = []
    ∧ getPartyBalance pn ph sRes pRes yRes = .num 0
    ∧ calculatePartyBalanceFromTransactionsFetch pn ph sRes pRes yRes =
        zeroBreakdown := by
  rcases sRes with e | ss
  · exact ⟨rfl, rfl, rfl⟩
  rcases pRes with e | ps
  · exact ⟨rfl, rfl, rfl⟩
  rcases yRes with e | ys
  · exact ⟨rfl, rfl, rfl⟩
  · exact absurd ⟨ss, ps, ys, rfl, rfl, rfl⟩ h

/-- Witness for C4 (amended) at a concrete failing sales fetch. -/
theorem C4_fetch_failure_zero_fill_witness :
    (¬ ∃ ss ps ys,
        (Except.error .fetchFailed : Except ApiError (List Sale)) = .ok ss
        ∧ (Except.ok [] : Except ApiError (List Purchase)) = .ok ps
        ∧ (Except.ok [] : Except ApiError (List Payment)) = .ok ys)
    ∧ getPartyTransactions "a" "1" (.error .fetchFailed) (.ok []) (.ok []) = [] :=
  ⟨by simp, (C4_fetch_failure_zero_fill "a" "1" (.error .fetchFailed) (.ok [])
      (.ok []) (by simp)).1⟩

/-- JavaScript `Math.round`: round to the nearest integer, half toward
positive infinity. -/
def jsRound (q : ℚ) : ℤ := ⌊q + 1/2⌋

/-- The `Math.round(x * 100) / 100` idiom: round to 2 decimal places. -/
def round2 (q : ℚ) : ℚ := (jsRound (q * 100) : ℚ) / 100

/-- An inventory item record as fetched from the collaborator
(`category`, prices and dates are never read by the embedded operations and
are omitted). `id` is optional in the source interface. -/
structure Item where
  id : Option String
  productName : String
  openingStock : ℚ
  lowStockAlert : ℚ
  isUniversal : Bool
deriving DecidableEq, Repr

/-- A sale/purchase line item (`quantity` in kg). -/
structure SaleItem where
  id : String
  itemName : String
  quantity : ℚ
  rate : ℚ
  total : ℚ
deriving DecidableEq, Repr

/-- JS truthiness of an optional string: `undefined` and the empty string
are falsy. -/
def optTruthy : Option String → Bool
  | some s => s ≠ ""
  | none => false

/-- Add a quantity for a name into a JS `Map`-like association list,
preserving first-insertion order. -/
def upsertQty : List (String × ℚ) → String → ℚ → List (String × ℚ)
  | [], n, q => [(n, q)]
  | (m, v) :: rest, n, q =>
      if m = n then (m, v + q) :: rest else (m, v) :: upsertQty rest n q

/-- The `soldItemsMap` / `purchasedItemsMap` consolidation: a JS `Map` keyed
by item name summing quantities, iterated in first-insertion order. -/
def consolidate (items : List SaleItem) : List (String × ℚ) :=
  items.foldl (fun m it => upsertQty m it.itemName it.quantity) []

/-- Write an item stock value to the collaborator store (keyed by item id). -/
def setStock : List (String × ℚ) → String → ℚ → List (String × ℚ)
  | [], i, v => [(i, v)]
  | (j, w) :: rest, i, v =>
      if j = i then (j, v) :: rest else (j, w) :: setStock rest i v

/-- Read back a written stock value (by item id). -/
def getStock (l : List (String × ℚ)) (i : String) : Option ℚ :=
  (l.find? (fun p => p.1 == i)).map (fun p => p.2)

/-- The behavior of the persistence collaborator during one stock
adjustment call: the result of `getItems({search: name})` for each name,
whether `updateItem` rejects for a given item id, and whether
`updateBardanaStock` rejects. -/
structure StockEnv where
  getItems : String → Except ApiError (List Item)
  updateItemFails : String → Bool
  bardanaFails : Bool

/-- The state mutated by `StockManager`: the in-memory processed-invoice
set, the Bardana stock in kilograms held by the collaborator
(`updateBardanaStock(add | subtract, quantityKg)` semantics modelled from the
spec, which fixes the interface of the remote backend), and the per-item
`openingStock` writes (item id to bags). -/
structure StockState where
  processedInvoices : List String
  bardanaKg : ℚ
  stocks : List (String × ℚ)
deriving DecidableEq, Repr

/-- `processedInvoices.add(invoiceId)` guarded by `if (invoiceId)`. -/
def markProcessed (st : StockState) (invoiceId : Option String) : StockState :=
  match invoiceId with
  | none => st
  | some iid =>
      if iid = "" then st
      else if st.processedInvoices.contains iid then st
      else { st with processedInvoices := st.processedInvoices ++ [iid] }

/-- The per-item formula of `updateStockOnSale` (source line
`Math.max(0, Math.round((item.openingStock - soldBags) * 100) / 100)` with
`soldBags = quantity / 30`). -/
def newStockOnSale (currentStockBags totalKg : ℚ) : ℚ :=
  max 0 (round2 (currentStockBags - totalKg / 30))

/-- The per-item formula of `updateStockOnPurchase` (no floor clamp). -/
def newStockOnPurchase (currentStockBags totalKg : ℚ) : ℚ :=
  round2 (currentStockBags + totalKg / 30)

/-- The body of the per-item loop of `updateStockOnSale` for one
consolidated (name, totalKg) pair: look the item up by exact product name,
and if found with a truthy id persist `newStockOnSale`; a lookup rejection,
a lookup miss, a falsy id, or a write rejection leaves the state unchanged
(caught or warned, loop continues). -/
def processSaleItem (env : StockEnv) (st : StockState) (nameQty : String × ℚ) :
    StockState :=
  match env.getItems nameQty.1 with
  | .error _ => st
  | .ok items =>
      match items.find? (fun i => i.productName == nameQty.1) with
      | none => st
      | some item =>
          match item.id with
          | none => st
          | some iid =>
              if iid = "" then st
              else if env.updateItemFails iid then st
              else { st with stocks :=
                       setStock st.stocks iid (newStockOnSale item.openingStock nameQty.2) }

/-- The body of the per-item loop of `updateStockOnPurchase`. -/
def processPurchaseItem (env : StockEnv) (st : StockState)
    (nameQty : String × ℚ) : StockState :=
  match env.getItems nameQty.1 with
  | .error _ => st
  | .ok items =>
      match items.find? (fun i => i.productName == nameQty.1) with
      | none => st
      | some item =>
          match item.id with
          | none => st
          | some iid =>
              if iid = "" then st
              else if env.updateItemFails iid then st
              else { st with stocks :=
                       setStock st.stocks iid (newStockOnPurchase item.openingStock nameQty.2) }

/-- `StockManager.updateStockOnSale`: validate input, skip an already
processed invoice id, subtract the total sold kilograms from Bardana
(propagating a rejection of that bulk update), run the best-effort per-item
loop, and finally mark the invoice id processed. -/
def updateStockOnSale (env : StockEnv) (st : StockState)
    (soldItems : List SaleItem) (invoiceId : Option String) :
    Except ApiError StockState :=
  if soldItems.isEmpty then .ok st
  else if optTruthy invoiceId
      && st.processedInvoices.contains (invoiceId.getD "") then .ok st
  else
    let totalBardanaReduction := (soldItems.map (fun i => i.quantity)).sum
    let bardanaStep : Except ApiError StockState :=
      if 0 < totalBardanaReduction then
        if env.bardanaFails then .error .fetchFailed
        else .ok { st with bardanaKg := st.bardanaKg - totalBardanaReduction }
      else .ok st
    match bardanaStep with
    | .error e => .error e
    | .ok st1 =>
        .ok (markProcessed ((consolidate soldItems).foldl (processSaleItem env) st1)
          invoiceId)

/-- `StockManager.updateStockOnPurchase`: validate input, add the total
purchased kilograms to Bardana (propagating a rejection of that bulk
update), and run the best-effort per-item loop. No invoice-id guard. -/
def updateStockOnPurchase (env : StockEnv) (st : StockState)
    (purchasedItems : List SaleItem) : Except ApiError StockState :=
  if purchasedItems.isEmpty then .ok st
  else
    let totalBardanaAddition := (purchasedItems.map (fun i => i.quantity)).sum
    let bardanaStep : Except ApiError StockState :=
      if 0 < totalBardanaAddition then
        if env.bardanaFails then .error .fetchFailed
        else .ok { st with bardanaKg := st.bardanaKg + totalBardanaAddition }
      else .ok st
    match bardanaStep with
    | .error e => .error e
    | .ok st1 => .ok ((consolidate purchasedItems).foldl (processPurchaseItem env) st1)

/-- `StockManager.isInvoiceProcessed`. -/
def isInvoiceProcessed (st : StockState) (invoiceId : String) : Bool :=
  st.processedInvoices.contains invoiceId

/-- `StockManager.getItemStock`: look the item up and return
`Math.round(openingStock * 30)` kilograms; a missing item or a failed read
yields 0. -/
def getItemStock (itemsRes : Except ApiError (List Item)) (itemName : String) : ℚ :=
  match itemsRes with
  | .error _ => 0
  | .ok items =>
      match items.find? (fun i => i.productName == itemName) with
      | none => 0
      | some item => (jsRound (item.openingStock * 30) : ℚ)

/-- `handleSaveItem` in edit-items.tsx: the persisted `openingStock` in bags
is the entered kilograms divided by 30 (`openingStock / 30`, no rounding). -/
def handleSaveItemOpeningStock (openingStockKg : ℚ) : ℚ := openingStockKg / 30

/-- `loadItem` in edit-items.tsx: the redisplayed kilograms are the persisted
bags multiplied by 30 (`openingStock * 30`, no rounding). -/
def loadItemOpeningStockKg (openingStockBags : ℚ) : ℚ := openingStockBags * 30

theorem getStock_setStock (l : List (String × ℚ)) (i : String) (v : ℚ) :
    getStock (setStock l i v) i = some v := by
  induction l with
  | nil => simp [setStock, getStock]
  | cons p rest ih =>
      obtain ⟨j, w⟩ := p
      by_cases h : j = i
      · subst h; simp [setStock, getStock]
      · simp only [setStock, if_neg h, getStock, List.find?]
        have hji : (j == i) = false := by simp [h]
        rw [hji]
        exact ih

theorem processSaleItem_bardanaKg (env : StockEnv) (st : StockState)
    (p : String × ℚ) : (processSaleItem env st p).bardanaKg = st.bardanaKg := by
  unfold processSaleItem
  repeat' split
  all_goals rfl

theorem processPurchaseItem_bardanaKg (env : StockEnv) (st : StockState)
    (p : String × ℚ) : (processPurchaseItem env st p).bardanaKg = st.bardanaKg := by
  unfold processPurchaseItem
  repeat' split
  all_goals rfl

theorem foldl_processSaleItem_bardanaKg (env : StockEnv)
    (l : List (String × ℚ)) : ∀ st : StockState,
    (l.foldl (processSaleItem env) st).bardanaKg = st.bardanaKg := by
  induction l with
  | nil => intro st; rfl
  | cons p l ih =>
      intro st
      rw [List.foldl_cons, ih, processSaleItem_bardanaKg]

theorem foldl_processPurchaseItem_bardanaKg (env : StockEnv)
    (l : List (String × ℚ)) : ∀ st : StockState,
    (l.foldl (processPurchaseItem env) st).bardanaKg = st.bardanaKg := by
  induction l with
  | nil => intro st; rfl
  | cons p l ih =>
      intro st
      rw [List.foldl_cons, ih, processPurchaseItem_bardanaKg]

theorem markProcessed_bardanaKg (st : StockState) (invoiceId : Option String) :
    (markProcessed st invoiceId).bardanaKg = st.bardanaKg := by
  unfold markProcessed
  repeat' split
  all_goals rfl

theorem markProcessed_contains_self (st : StockState) (iid : String)
    (h : iid ≠ "") :
    (markProcessed st (some iid)).processedInvoices.contains iid = true := by
  unfold markProcessed
  by_cases h2 : iid ∈ st.processedInvoices <;>
    simp [h, h2, List.mem_append]

theorem round2_nonpos {q : ℚ} (h : q < 0) : round2 q ≤ 0 := by
  unfold round2 jsRound
  have h1 : q * 100 + 1/2 < ((1 : ℤ) : ℚ) := by push_cast; nlinarith
  have h2 : ⌊q * 100 + 1/2⌋ < 1 := Int.floor_lt.mpr h1
  have h3 : ((⌊q * 100 + 1/2⌋ : ℤ) : ℚ) ≤ 0 := by exact_mod_cast by omega
  linarith [h3]

/-- C5: for every consolidated (item name, total kg) pair whose item is
found in the catalog with a truthy id and whose write succeeds, the sale
loop persists `max(0, round((currentStockBags - totalKg/30) * 100) / 100)`
bags; this value is never negative, and when the kilograms sold would drive
the stock below zero it is exactly 0. -/
theorem C5_sale_stock_clamped (env : StockEnv) (st : StockState)
    (name : String) (qty : ℚ) (items : List Item) (item : Item) (iid : String)
    (hget : env.getItems name = .ok items)
    (hfind : items.find? (fun i => i.productName == name) = some item)
    (hid : item.id = some iid) (hne : iid ≠ "")
    (hwrite : env.updateItemFails iid = false) :
    getStock (processSaleItem env st (name, qty)).stocks iid =
      some (newStockOnSale item.openingStock qty)
    ∧ (∀ cur kg : ℚ, 0 ≤ newStockOnSale cur kg)
    ∧ (∀ cur kg : ℚ, cur - kg / 30 < 0 → newStockOnSale cur kg = 0) := by
  refine ⟨?_, ?_, ?_⟩
  · unfold processSaleItem
    simp only [hget, hfind, hid, if_neg hne, hwrite, Bool.false_eq_true,
      if_false, ite_false]
    exact getStock_setStock st.stocks iid _
  · intro cur kg
    exact le_max_left 0 _
  · intro cur kg h
    exact max_eq_left (round2_nonpos h)

/-- Witness for C5: a concrete catalog with one item holding 1 bag, a sale
of 60 kg (2 bags); the persisted stock is clamped to exactly 0. -/
theorem C5_sale_stock_clamped_witness :
    (StockEnv.mk (fun _ => .ok [⟨some "id1", "Rice", 1, 0, false⟩])
        (fun _ => false) false).getItems "Rice" =
      .ok [⟨some "id1", "Rice", 1, 0, false⟩]
    ∧ getStock (processSaleItem
        (StockEnv.mk (fun _ => .ok [⟨some "id1", "Rice", 1, 0, false⟩])
          (fun _ => false) false)
        ⟨[], 0, []⟩ ("Rice", 60)).stocks "id1" = some (newStockOnSale 1 60)
    ∧ newStockOnSale 1 60 = 0 :=
  ⟨rfl,
    (C5_sale_stock_clamped
      (StockEnv.mk (fun _ => .ok [⟨some "id1", "Rice", 1, 0, false⟩])
        (fun _ => false) false)
      ⟨[], 0, []⟩ "Rice" 60 [⟨some "id1", "Rice", 1, 0, false⟩]
      ⟨some "id1", "Rice", 1, 0, false⟩ "id1" rfl (by simp) rfl (by simp)
      rfl).1,
    (C5_sale_stock_clamped
      (StockEnv.mk (fun _ => .ok [⟨some "id1", "Rice", 1, 0, false⟩])
        (fun _ => false) false)
      ⟨[], 0, []⟩ "Rice" 60 [⟨some "id1", "Rice", 1, 0, false⟩]
      ⟨some "id1", "Rice", 1, 0, false⟩ "id1" rfl (by simp) rfl (by simp)
      rfl).2.2 1 60 (by norm_num)⟩

theorem updateStockOnSale_dup (env : StockEnv) (st : StockState)
    (soldItems : List SaleItem) (iid : String) (hiid : iid ≠ "")
    (h2 : iid ∈ st.processedInvoices) :
    updateStockOnSale env st soldItems (some iid) = .ok st := by
  unfold updateStockOnSale
  by_cases he : soldItems.isEmpty
  · simp [he]
  · simp [he, optTruthy, hiid, h2]

theorem updateStockOnSale_ok (env : StockEnv) (st : StockState)
    (soldItems : List SaleItem) (invoiceId : Option String)
    (hne : soldItems ≠ [])
    (hdup : optTruthy invoiceId = true →
        invoiceId.getD "" ∉ st.processedInvoices)
    (hbar : 0 < (soldItems.map (fun i => i.quantity)).sum →
        env.bardanaFails = false) :
    updateStockOnSale env st soldItems invoiceId =
      .ok (markProcessed
        ((consolidate soldItems).foldl (processSaleItem env)
          (if 0 < (soldItems.map (fun i => i.quantity)).sum
           then { st with bardanaKg :=
                    st.bardanaKg - (soldItems.map (fun i => i.quantity)).sum }
           else st)) invoiceId) := by
  unfold updateStockOnSale
  have he : soldItems.isEmpty = false := by simpa [List.isEmpty_iff] using hne
  by_cases ht : 0 < (soldItems.map (fun i => i.quantity)).sum
  · simp [he, ht, hbar ht]
    all_goals intro hA hB
    all_goals exact absurd hB (hdup hA)
  · simp [he, ht]
    all_goals intro hA hB
    all_goals exact absurd hB (hdup hA)

theorem updateStockOnSale_bardana_error (env : StockEnv) (st : StockState)
    (soldItems : List SaleItem) (invoiceId : Option String)
    (hne : soldItems ≠ [])
    (hdup : optTruthy invoiceId = true →
        invoiceId.getD "" ∉ st.processedInvoices)
    (ht : 0 < (soldItems.map (fun i => i.quantity)).sum)
    (hbar : env.bardanaFails = true) :
    updateStockOnSale env st soldItems invoiceId = .error .fetchFailed := by
  unfold updateStockOnSale
  have he : soldItems.isEmpty = false := by simpa [List.isEmpty_iff] using hne
  simp [he, ht, hbar]
  all_goals exact hdup

theorem updateStockOnPurchase_ok (env : StockEnv) (st : StockState)
    (purchasedItems : List SaleItem)
    (hne : purchasedItems ≠ [])
    (hbar : 0 < (purchasedItems.map (fun i => i.quantity)).sum →
        env.bardanaFails = false) :
    updateStockOnPurchase env st purchasedItems =
      .ok ((consolidate purchasedItems).foldl (processPurchaseItem env)
        (if 0 < (purchasedItems.map (fun i => i.quantity)).sum
         then { st with bardanaKg :=
                  st.bardanaKg + (purchasedItems.map (fun i => i.quantity)).sum }
         else st)) := by
  unfold updateStockOnPurchase
  have he : purchasedItems.isEmpty = false := by simpa [List.isEmpty_iff] using hne
  by_cases ht : 0 < (purchasedItems.map (fun i => i.quantity)).sum
  · simp [he, ht, hbar ht]
  · simp [he, ht]

theorem updateStockOnPurchase_bardana_error (env : StockEnv) (st : StockState)
    (purchasedItems : List SaleItem)
    (hne : purchasedItems ≠ [])
    (ht : 0 < (purchasedItems.map (fun i => i.quantity)).sum)
    (hbar : env.bardanaFails = true) :
    updateStockOnPurchase env st purchasedItems = .error .fetchFailed := by
  unfold updateStockOnPurchase
  have he : purchasedItems.isEmpty = false := by simpa [List.isEmpty_iff] using hne
  simp [he, ht, hbar]

theorem updateStockOnSale_ok_processed (env : StockEnv) (st st1 : StockState)
    (items : List SaleItem) (iid : String) (hiid : iid ≠ "")
    (hne : items ≠ []) (hfresh : st.processedInvoices.contains iid = false)
    (hok : updateStockOnSale env st items (some iid) = .ok st1) :
    st1.processedInvoices.contains iid = true := by
  have hdup : optTruthy (some iid) = true →
      (some iid : Option String).getD "" ∉ st.processedInvoices := by
    intro _
    simpa using hfresh
  by_cases hbf : env.bardanaFails = true
  · by_cases hb : 0 < (items.map (fun i => i.quantity)).sum
    · rw [updateStockOnSale_bardana_error env st items (some iid) hne hdup hb hbf]
        at hok
      simp at hok
    · rw [updateStockOnSale_ok env st items (some iid) hne hdup
          (fun h => absurd h hb)] at hok
      obtain rfl := (Except.ok.inj hok).symm
      exact markProcessed_contains_self _ iid hiid
  · have hbf2 : env.bardanaFails = false := by simpa using hbf
    rw [updateStockOnSale_ok env st items (some iid) hne hdup (fun _ => hbf2)]
      at hok
    obtain rfl := (Except.ok.inj hok).symm
    exact markProcessed_contains_self _ iid hiid

/-- C6: if the invoice id was already processed, `updateStockOnSale` is a
no-op returning the state unchanged (nothing is read or written); after a
first completed call with a fresh non-empty-id invoice and a non-empty item
list, `isInvoiceProcessed` is true, and a second call with the same id (under
any collaborator behavior) leaves the state unchanged, so stock is mutated
only once. -/
theorem C6_idempotent_sale_application (env env2 : StockEnv)
    (st st1 : StockState) (items : List SaleItem) (iid : String)
    (hiid : iid ≠ "") :
    (st.processedInvoices.contains iid = true →
        updateStockOnSale env st items (some iid) = .ok st)
    ∧ (items ≠ [] → st.processedInvoices.contains iid = false →
        updateStockOnSale env st items (some iid) = .ok st1 →
        isInvoiceProcessed st1 iid = true
        ∧ updateStockOnSale env2 st1 items (some iid) = .ok st1) := by
  refine ⟨fun h2 => updateStockOnSale_dup env st items iid hiid
    (by simpa using h2), ?_⟩
  intro hne hfresh hok
  have hc := updateStockOnSale_ok_processed env st st1 items iid hiid hne hfresh hok
  exact ⟨hc, updateStockOnSale_dup env2 st1 items iid hiid (by simpa using hc)⟩

/-- A concrete collaborator for the witnesses: item lookups return an empty
catalog and nothing rejects. -/
def envEmptyCatalog : StockEnv := ⟨fun _ => .ok [], fun _ => false, false⟩

/-- Witness for C6: a concrete fresh call marks INV-1 processed and the
second call is a no-op. -/
theorem C6_idempotent_sale_application_witness :
    updateStockOnSale envEmptyCatalog ⟨[], 0, []⟩ [⟨"l1", "X", 30, 1, 30⟩]
        (some "INV-1") = .ok ⟨["INV-1"], -30, []⟩
    ∧ isInvoiceProcessed ⟨["INV-1"], -30, []⟩ "INV-1" = true
    ∧ updateStockOnSale envEmptyCatalog ⟨["INV-1"], -30, []⟩
        [⟨"l1", "X", 30, 1, 30⟩] (some "INV-1") = .ok ⟨["INV-1"], -30, []⟩ := by
  have hok : updateStockOnSale envEmptyCatalog ⟨[], 0, []⟩
      [⟨"l1", "X", 30, 1, 30⟩] (some "INV-1") = .ok ⟨["INV-1"], -30, []⟩ := by
    norm_num [updateStockOnSale, envEmptyCatalog, consolidate, upsertQty,
      processSaleItem, markProcessed, optTruthy]
    decide
  have h := (C6_idempotent_sale_application envEmptyCatalog envEmptyCatalog
      ⟨[], 0, []⟩ ⟨["INV-1"], -30, []⟩ [⟨"l1", "X", 30, 1, 30⟩] "INV-1"
      (by decide)).2 (by simp) (by simp) hok
  exact ⟨hok, h.1, h.2⟩

/-- C7: `updateStockOnSale` subtracts exactly the summed line-item quantity
q from Bardana stock (in kg) and `updateStockOnPurchase` adds exactly q,
independent of which products the line items name; a sale totalling q
followed by a purchase totalling q returns Bardana stock to exactly its
original value. -/
theorem C7_bardana_symmetry (env env2 : StockEnv) (st st1 st2 : StockState)
    (saleItems purchaseItems : List SaleItem) (q : ℚ) (hq : 0 < q)
    (hs : (saleItems.map (fun i => i.quantity)).sum = q)
    (hp : (purchaseItems.map (fun i => i.quantity)).sum = q)
    (h1 : updateStockOnSale env st saleItems none = .ok st1)
    (h2 : updateStockOnPurchase env2 st1 purchaseItems = .ok st2) :
    st1.bardanaKg = st.bardanaKg - q
    ∧ st2.bardanaKg = st1.bardanaKg + q
    ∧ st2.bardanaKg = st.bardanaKg := by
  have hneS : saleItems ≠ [] := by
    rintro rfl
    simp at hs
    linarith
  have hneP : purchaseItems ≠ [] := by
    rintro rfl
    simp at hp
    linarith
  have hdup : optTruthy none = true →
      ((none : Option String).getD "") ∉ st.processedInvoices := by
    intro h
    simp [optTruthy] at h
  have hbfS : env.bardanaFails = false := by
    by_contra hbf
    have hbf2 : env.bardanaFails = true := by simpa using hbf
    rw [updateStockOnSale_bardana_error env st saleItems none hneS hdup
      (by rw [hs]; exact hq) hbf2] at h1
    simp at h1
  have hbfP : env2.bardanaFails = false := by
    by_contra hbf
    have hbf2 : env2.bardanaFails = true := by simpa using hbf
    rw [updateStockOnPurchase_bardana_error env2 st1 purchaseItems hneP
      (by rw [hp]; exact hq) hbf2] at h2
    simp at h2
  rw [updateStockOnSale_ok env st saleItems none hneS hdup (fun _ => hbfS)] at h1
  rw [updateStockOnPurchase_ok env2 st1 purchaseItems hneP (fun _ => hbfP)] at h2
  obtain rfl := (Except.ok.inj h1).symm
  obtain rfl := (Except.ok.inj h2).symm
  rw [hs] at *
  rw [hp] at *
  have e1 : (markProcessed
      ((consolidate saleItems).foldl (processSaleItem env)
        (if 0 < q then { st with bardanaKg := st.bardanaKg - q } else st))
      none).bardanaKg = st.bardanaKg - q := by
    rw [markProcessed_bardanaKg, foldl_processSaleItem_bardanaKg, if_pos hq]
  have e2 : ((consolidate purchaseItems).foldl (processPurchaseItem env2)
      (if 0 < q
       then { (markProcessed
                ((consolidate saleItems).foldl (processSaleItem env)
                  (if 0 < q then { st with bardanaKg := st.bardanaKg - q } else st))
                none) with
              bardanaKg := (markProcessed
                ((consolidate saleItems).foldl (processSaleItem env)
                  (if 0 < q then { st with bardanaKg := st.bardanaKg - q } else st))
                none).bardanaKg + q }
       else (markProcessed
              ((consolidate saleItems).foldl (processSaleItem env)
                (if 0 < q then { st with bardanaKg := st.bardanaKg - q } else st))
              none))).bardanaKg =
      (markProcessed
        ((consolidate saleItems).foldl (processSaleItem env)
          (if 0 < q then { st with bardanaKg := st.bardanaKg - q } else st))
        none).bardanaKg + q := by
    rw [foldl_processPurchaseItem_bardanaKg, if_pos hq]
  refine ⟨e1, e2, ?_⟩
  rw [e2, e1]
  ring

/-- Witness for C7: a sale of 30 kg from Bardana stock 90 kg followed by a
purchase of 30 kg restores 90 kg. -/
theorem C7_bardana_symmetry_witness :
    updateStockOnSale envEmptyCatalog ⟨[], 90, []⟩ [⟨"l1", "X", 30, 1, 30⟩]
        none = .ok ⟨[], 60, []⟩
    ∧ updateStockOnPurchase envEmptyCatalog ⟨[], 60, []⟩
        [⟨"l1", "X", 30, 1, 30⟩] = .ok ⟨[], 90, []⟩
    ∧ (StockState.mk [] 60 []).bardanaKg = (StockState.mk [] 90 []).bardanaKg - 30
    ∧ (StockState.mk [] 90 []).bardanaKg = (StockState.mk [] 90 []).bardanaKg := by
  have h1 : updateStockOnSale envEmptyCatalog ⟨[], 90, []⟩
      [⟨"l1", "X", 30, 1, 30⟩] none = .ok ⟨[], 60, []⟩ := by
    norm_num [updateStockOnSale, envEmptyCatalog, consolidate, upsertQty,
      processSaleItem, markProcessed, optTruthy]
  have h2 : updateStockOnPurchase envEmptyCatalog ⟨[], 60, []⟩
      [⟨"l1", "X", 30, 1, 30⟩] = .ok ⟨[], 90, []⟩ := by
    norm_num [updateStockOnPurchase, envEmptyCatalog, consolidate, upsertQty,
      processPurchaseItem]
  have h := C7_bardana_symmetry envEmptyCatalog envEmptyCatalog ⟨[], 90, []⟩
    ⟨[], 60, []⟩ ⟨[], 90, []⟩ [⟨"l1", "X", 30, 1, 30⟩] [⟨"l1", "X", 30, 1, 30⟩]
    30 (by norm_num) (by norm_num) (by norm_num) h1 h2
  exact ⟨h1, h2, h.1, h.2.2⟩

/-- A concrete catalog item for the best-effort scenario (10 bags of A). -/
def itemA : Item := ⟨some "idA", "A", 10, 0, false⟩

/-- A concrete catalog item for the best-effort scenario (5 bags of C). -/
def itemC : Item := ⟨some "idC", "C", 5, 0, false⟩

/-- A collaborator where looking up item B fails while A and C resolve and
all writes succeed. -/
def envThree : StockEnv :=
  ⟨fun n => if n = "A" then .ok [itemA]
            else if n = "C" then .ok [itemC]
            else .error .fetchFailed,
   fun _ => false, false⟩

/-- A three-line sale: 30 kg of A, 60 kg of B, 30 kg of C. -/
def saleList3 : List SaleItem :=
  [⟨"l1", "A", 30, 1, 30⟩, ⟨"l2", "B", 60, 1, 60⟩, ⟨"l3", "C", 30, 1, 30⟩]

/-- C8: the per-item loop is best-effort: whatever the per-item lookup and
write behavior, the call completes without throwing as long as the Bardana
bulk update does not reject (and, when it does reject with a positive total,
the whole call surfaces the error); the empty-input case short-circuits to a
no-op; and in a concrete sale of three consolidated items where the lookup
of B fails, A and C still get their stock updated and the call returns
ok. -/
theorem C8_best_effort_continuation :
    (∀ (env : StockEnv) (st : StockState) (items : List SaleItem)
        (invoiceId : Option String), items ≠ [] →
        (optTruthy invoiceId = true →
          invoiceId.getD "" ∉ st.processedInvoices) →
        (0 < (items.map (fun i => i.quantity)).sum →
          env.bardanaFails = false) →
        ∃ st', updateStockOnSale env st items invoiceId = .ok st')
    ∧ (∀ (env : StockEnv) (st : StockState) (items : List SaleItem),
        items ≠ [] →
        (0 < (items.map (fun i => i.quantity)).sum →
          env.bardanaFails = false) →
        ∃ st', updateStockOnPurchase env st items = .ok st')
    ∧ (∀ (env : StockEnv) (st : StockState) (items : List SaleItem)
        (invoiceId : Option String), items ≠ [] →
        (optTruthy invoiceId = true →
          invoiceId.getD "" ∉ st.processedInvoices) →
        0 < (items.map (fun i => i.quantity)).sum → env.bardanaFails = true →
        updateStockOnSale env st items invoiceId = .error .fetchFailed
        ∧ updateStockOnPurchase env st items = .error .fetchFailed)
    ∧ (∀ (env : StockEnv) (st : StockState) (invoiceId : Option String),
        updateStockOnSale env st [] invoiceId = .ok st
        ∧ updateStockOnPurchase env st [] = .ok st)
    ∧ (updateStockOnSale envThree ⟨[], 300, []⟩ saleList3 none =
        .ok ⟨[], 180, [("idA", 9), ("idC", 4)]⟩
      ∧ getStock [("idA", 9), ("idC", 4)] "idA" = some 9
      ∧ getStock [("idA", 9), ("idC", 4)] "idC" = some 4) := by
  refine ⟨?_, ?_, ?_, ?_, ?_⟩
  · intro env st items invoiceId hne hdup hbar
    exact ⟨_, updateStockOnSale_ok env st items invoiceId hne hdup hbar⟩
  · intro env st items hne hbar
    exact ⟨_, updateStockOnPurchase_ok env st items hne hbar⟩
  · intro env st items invoiceId hne hdup ht hbf
    exact ⟨updateStockOnSale_bardana_error env st items invoiceId hne hdup ht hbf,
      updateStockOnPurchase_bardana_error env st items hne ht hbf⟩
  · intro env st invoiceId
    exact ⟨rfl, rfl⟩
  · have hAB : ("A" : String) ≠ "B" := by decide
    have hAC : ("A" : String) ≠ "C" := by decide
    have hBC : ("B" : String) ≠ "C" := by decide
    have hBA : ("B" : String) ≠ "A" := by decide
    have hCA : ("C" : String) ≠ "A" := by decide
    have hid : ("idA" : String) ≠ "idC" := by decide
    have hidA : ("idA" : String) ≠ "" := by decide
    have hidC : ("idC" : String) ≠ "" := by decide
    refine ⟨?_, by norm_num [getStock, hid], by norm_num [getStock, hid]⟩
    norm_num [updateStockOnSale, envThree, saleList3, consolidate, upsertQty,
      processSaleItem, markProcessed, optTruthy, itemA, itemC, newStockOnSale,
      round2, jsRound, setStock, Int.floor_eq_iff, hAB, hAC, hBC, hBA, hCA, hid,
      hidA, hidC]

/-- Witness for C8: the no-throw part applied to the concrete best-effort
collaborator and sale. -/
theorem C8_best_effort_continuation_witness :
    (saleList3 ≠ [] ∧ envThree.bardanaFails = false)
    ∧ ∃ st', updateStockOnSale envThree ⟨[], 300, []⟩ saleList3 none = .ok st' :=
  ⟨⟨by simp [saleList3], rfl⟩,
    C8_best_effort_continuation.1 envThree ⟨[], 300, []⟩ saleList3 none
      (by simp [saleList3]) (fun h => by simp [optTruthy] at h) (fun _ => rfl)⟩

/-- C9 counterexample: entering an opening stock of 100 kg persists the
unrounded quotient 100/30 bags — not 3.33 bags — and redisplays as 100 kg,
not 99.9 kg. -/
theorem C9_counterexample :
    handleSaveItemOpeningStock 100 ≠ 333/100
    ∧ loadItemOpeningStockKg (handleSaveItemOpeningStock 100) ≠ 999/10 := by
  constructor <;>
    norm_num [handleSaveItemOpeningStock, loadItemOpeningStockKg]

/-- C9 (amended): entering 900 kg persists as exactly 30 bags and reads back
as exactly 900 kg; but no 2-decimal rounding is applied on save — any
entered quantity persists as the exact quotient kg/30 and redisplays as
exactly the original kilograms in the embedded exact arithmetic (100 kg
persists as 10/3 bags, not 3.33, and redisplays as 100 kg, not 99.9), while
`getItemStock` reports the kilograms rounded to an integer (100). -/
theorem C9_unit_conversion_round_trip (kg : ℚ) :
    handleSaveItemOpeningStock 900 = 30
    ∧ loadItemOpeningStockKg (handleSaveItemOpeningStock 900) = 900
    ∧ loadItemOpeningStockKg (handleSaveItemOpeningStock kg) = kg
    ∧ handleSaveItemOpeningStock 100 = 10/3
    ∧ loadItemOpeningStockKg (handleSaveItemOpeningStock 100) = 100
    ∧ getItemStock
        (.ok [⟨some "idW", "Wheat", handleSaveItemOpeningStock 100, 0, false⟩])
        "Wheat" = 100 := by
  refine ⟨by norm_num [handleSaveItemOpeningStock],
    by norm_num [handleSaveItemOpeningStock, loadItemOpeningStockKg],
    by field_simp [handleSaveItemOpeningStock, loadItemOpeningStockKg],
    by norm_num [handleSaveItemOpeningStock],
    by norm_num [handleSaveItemOpeningStock, loadItemOpeningStockKg], ?_⟩
  norm_num [getItemStock, handleSaveItemOpeningStock, jsRound, Int.floor_eq_iff]

/-- A collaborator where every per-item lookup rejects and every write
rejects, but the Bardana bulk update succeeds. -/
def envAllFail : StockEnv :=
  ⟨fun _ => .error .fetchFailed, fun _ => true, false⟩

/-- C10: with a fresh truthy invoice id and a non-empty item list, whenever
the call completes (in particular under a collaborator where every per-item
lookup or write fails, since those errors are caught inside the loop), the
id is marked processed and any retry of the same invoice is a no-op under
any collaborator behavior; conversely, if the Bardana bulk update rejects,
the call rethrows the error and produces no new state, so the processed set
is unchanged. -/
theorem C10_processed_marking (env : StockEnv) (st st1 : StockState)
    (items : List SaleItem) (iid : String) (hiid : iid ≠ "")
    (hne : items ≠ []) (hfresh : st.processedInvoices.contains iid = false) :
    (updateStockOnSale env st items (some iid) = .ok st1 →
        isInvoiceProcessed st1 iid = true
        ∧ ∀ env2 : StockEnv,
            updateStockOnSale env2 st1 items (some iid) = .ok st1)
    ∧ (0 < (items.map (fun i => i.quantity)).sum → env.bardanaFails = true →
        updateStockOnSale env st items (some iid) = .error .fetchFailed) := by
  constructor
  · intro hok
    have hc := updateStockOnSale_ok_processed env st st1 items iid hiid hne
      hfresh hok
    exact ⟨hc, fun env2 =>
      updateStockOnSale_dup env2 st1 items iid hiid (by simpa using hc)⟩
  · intro ht hbf
    exact updateStockOnSale_bardana_error env st items (some iid) hne
      (fun _ => by simpa using hfresh) ht hbf

/-- Witness for C10: under the all-failing per-item collaborator, the first
call still marks INV-9 processed and the retry is a no-op. -/
theorem C10_processed_marking_witness :
    updateStockOnSale envAllFail ⟨[], 0, []⟩ [⟨"l1", "X", 30, 1, 30⟩]
        (some "INV-9") = .ok ⟨["INV-9"], -30, []⟩
    ∧ isInvoiceProcessed ⟨["INV-9"], -30, []⟩ "INV-9" = true
    ∧ updateStockOnSale envAllFail ⟨["INV-9"], -30, []⟩
        [⟨"l1", "X", 30, 1, 30⟩] (some "INV-9") = .ok ⟨["INV-9"], -30, []⟩ := by
  have hok : updateStockOnSale envAllFail ⟨[], 0, []⟩
      [⟨"l1", "X", 30, 1, 30⟩] (some "INV-9") = .ok ⟨["INV-9"], -30, []⟩ := by
    norm_num [updateStockOnSale, envAllFail, consolidate, upsertQty,
      processSaleItem, markProcessed, optTruthy]
    decide
  have h := (C10_processed_marking envAllFail ⟨[], 0, []⟩ ⟨["INV-9"], -30, []⟩
      [⟨"l1", "X", 30, 1, 30⟩] "INV-9" (by decide) (by simp) (by simp)).1 hok
  exact ⟨hok, h.1, h.2 envAllFail⟩

end Spec2Proof
